import Mathlib

/-!
Verification of the normalization / scoring pipeline of the
Cloud-Host-Misconfiguration-Scanner repository.

The Python sources `normalize.py`, `score_and_report.py`,
`utils/build_findings.py` are shallowly embedded below: pure string and
record transformations become Lean functions over `String`, `Option` and
`Rat`; Python floats are modelled as exact rationals; Python exceptions
become `Except`.  Python string primitives (`str.strip`, `str.lower`,
`str.split`, `str.startswith`, `"sep".join`) are modelled by the `py*`
helpers, character-by-character over `String.data`, so that every
definition is kernel-executable on concrete inputs.
-/

/-- Model of Python `str.strip()` (whitespace removed from both ends). -/
def pyStrip (s : String) : String :=
  String.mk (((s.data.dropWhile Char.isWhitespace).reverse.dropWhile Char.isWhitespace).reverse)

/-- Model of Python `str.lower()` (the tokens of this code base are ASCII). -/
def pyLower (s : String) : String :=
  String.mk (s.data.map Char.toLower)

/-- Model of Python `sep in s` for a single-character separator. -/
def pyContains (c : Char) (s : String) : Bool :=
  s.data.contains c

/-- Model of Python `s.startswith(p)`. -/
def pyStartsWith (p s : String) : Bool :=
  p.data.isPrefixOf s.data

/-- Splitting a character list at every occurrence of `c` (Python `str.split(sep)`
with a one-character separator; `"".split(sep) == [""]`). -/
def splitList (c : Char) : List Char → List (List Char)
  | [] => [[]]
  | x :: xs =>
    match splitList c xs with
    | [] => [[]]
    | h :: t => if x = c then [] :: h :: t else (x :: h) :: t

/-- Model of Python `s.split(c)` for a one-character separator `c`. -/
def pySplit (c : Char) (s : String) : List String :=
  (splitList c s.data).map String.mk

/-- Model of Python `s.split(c, 1)` when `c` occurs in `s`: the text before the
first `c` and the text after it. -/
def pySplit1 (c : Char) (s : String) : String × String :=
  (String.mk (s.data.takeWhile (fun x => x ≠ c)),
   String.mk ((s.data.dropWhile (fun x => x ≠ c)).drop 1))

/-- Model of Python `sep.join(parts)`. -/
def pyJoin (sep : String) : List String → String
  | [] => ""
  | [x] => x
  | x :: y :: xs => x ++ sep ++ pyJoin sep (y :: xs)

/-- Model of Python `a or b` for two optional strings (`None` and `""` are falsy). -/
def pyOr (a b : Option String) : Option String :=
  match a with
  | none => b
  | some s => if s = "" then b else some s

-- ---------------------------------------------------------------------------
-- normalize.py : severity / status maps  (lines 16-30)
-- ---------------------------------------------------------------------------

/-- `SEVERITY_MAP` of normalize.py, as an association list. -/
def SEVERITY_MAP : List (String × String) :=
  [("critical", "critical"), ("crit", "critical"),
   ("high", "high"),
   ("medium", "medium"), ("med", "medium"),
   ("low", "low"),
   ("informational", "info"), ("info", "info"), ("none", "info"),
   ("5", "critical"), ("4", "high"), ("3", "medium"), ("2", "low"),
   ("1", "info"), ("0", "info")]

/-- `STATUS_MAP` of normalize.py, as an association list. -/
def STATUS_MAP : List (String × String) :=
  [("pass", "pass"), ("ok", "pass"), ("passed", "pass"), ("success", "pass"),
   ("fail", "fail"), ("failed", "fail"), ("error", "fail"),
   ("warning", "warn"), ("warn", "warn"),
   ("info", "info"), ("manual", "info"), ("not_applicable", "info"), ("na", "info")]

/-- The closed severity vocabulary of the unified schema. -/
def sevClosed : List String := ["critical", "high", "medium", "low", "info"]

/-- The closed status vocabulary of the unified schema. -/
def statClosed : List String := ["pass", "fail", "warn", "info"]

/-- Core of `_norm_severity`: table lookup on the cleaned token, identity on
closed values, `"info"` otherwise (normalize.py line 67). -/
def sevCore (v : String) : String :=
  match SEVERITY_MAP.lookup v with
  | some r => r
  | none => if v ∈ sevClosed then v else "info"

/-- Core of `_norm_status` (normalize.py line 72). -/
def statCore (v : String) : String :=
  match STATUS_MAP.lookup v with
  | some r => r
  | none => if v ∈ statClosed then v else "info"

/-- `_norm_severity` of normalize.py.  The argument models the token after
Python `str()` coercion; `none` covers `None` (a falsy number such as `0`
coerces to the string `"0"`, which the table also sends to `"info"`). -/
def normSeverity : Option String → String
  | none => "info"
  | some s => if s = "" then "info" else sevCore (pyLower (pyStrip s))

/-- `_norm_status` of normalize.py. -/
def normStatus : Option String → String
  | none => "info"
  | some s => if s = "" then "info" else statCore (pyLower (pyStrip s))

example : normSeverity (some "  CRIT ") = "critical" := by decide
example : normSeverity (some "5") = "critical" := by decide
example : normSeverity (some "weird") = "info" := by decide
example : normStatus (some "Failed") = "fail" := by decide
example : normStatus none = "info" := by decide

-- ---------------------------------------------------------------------------
-- normalize.py : unified schema and `_s` coercion  (lines 39-102)
-- ---------------------------------------------------------------------------

/-- The Unified Finding of normalize.py (`_mk_finding`).  The `timestamp`
field (defaulted to the wall clock) and the opaque `raw` payload are omitted:
neither occurs in the dedupe key nor in any claim under verification. -/
structure UnifiedFinding where
  source : String
  scanner : String
  asset : Option String
  service : Option String
  control_id : Option String
  title : Option String
  description : Option String
  status : String
  severity : String
deriving DecidableEq

/-- The `_s` coercion of normalize.py restricted to string inputs (the inputs
arising in the claims): strip, and turn the empty result into `None`. -/
def sOpt (x : Option String) : Option String :=
  match x with
  | none => none
  | some s => if pyStrip s = "" then none else some (pyStrip s)

-- ---------------------------------------------------------------------------
-- normalize.py : parse_lynis_dat  (lines 148-196)
-- ---------------------------------------------------------------------------

/-- One record produced by `parse_lynis_dat` for a warning/suggestion/hint
line (the dictionary built by its inner `_rec`; the constant
`scanner="lynis"` entry is implicit). -/
structure LynisRecord where
  host : Option String
  category : String
  test_id : Option String
  title : String
  description : String
  status : String
  severity : String
deriving DecidableEq

/-- The `_rec` closure of `parse_lynis_dat`: split the value on `|`; the first
segment becomes the test id when it is non-empty and is not a `text:` marker,
and the message is the re-joined remainder (falling back to the first segment
when that remainder strips to empty). -/
def lynisRec (host : Option String) (v : String) (title status severity : String) :
    LynisRecord :=
  if pyContains '|' v then
    match pySplit '|' v with
    | [] => ⟨host, "linux", none, title, v, status, severity⟩
    | p0 :: rest =>
      if p0 ≠ "" ∧ ¬ (pyStartsWith "text:" p0) then
        let m := pyStrip (pyJoin "|" rest)
        ⟨host, "linux", some p0, title, if m = "" then p0 else m, status, severity⟩
      else ⟨host, "linux", none, title, v, status, severity⟩
  else ⟨host, "linux", none, title, v, status, severity⟩

/-- Per-line behaviour of `parse_lynis_dat`: skip blank / `#` / `=`-free
lines, then turn `warning[...]=`, `suggestion[...]=`, `hint[...]=` lines into
records.  The running `host` picked up from earlier `hostname=` lines is a
parameter here. -/
def parseLynisLine (host : Option String) (rawLine : String) : Option LynisRecord :=
  let line := pyStrip rawLine
  if line = "" ∨ ¬ (pyContains '=' line) ∨ pyStartsWith "#" line then none
  else
    let kv := pySplit1 '=' line
    let k := pyLower (pyStrip kv.1)
    let v := pyStrip kv.2
    if pyStartsWith "warning[" k then some (lynisRec host v "Warning" "fail" "medium")
    else if pyStartsWith "suggestion[" k then some (lynisRec host v "Suggestion" "warn" "low")
    else if pyStartsWith "hint[" k then some (lynisRec host v "Hint" "info" "info")
    else none

/-- `adapt_lynis` of normalize.py (lines 123-138) applied to a record coming
out of `parse_lynis_dat` (such records carry `category="linux"` and have no
`group` / `test` / `id` / `detail` / `result` / `level` keys, so those `or`
fallbacks reduce as written here). -/
def adaptLynis (r : LynisRecord) : UnifiedFinding :=
  { source := "linux"
    scanner := "lynis"
    asset := sOpt r.host
    service := sOpt (pyOr (some r.category) (some "linux"))
    control_id := sOpt r.test_id
    title := sOpt (some r.title)
    description := sOpt (pyOr (some r.description) (some r.title))
    status := normStatus (if r.status = "" then none else some r.status)
    severity := normSeverity (if r.severity = "" then none else some r.severity) }

-- ---------------------------------------------------------------------------
-- utils/build_findings.py : load_lynis_findings  (lines 68-121)
-- ---------------------------------------------------------------------------

/-- One finding built by `load_lynis_findings` in utils/build_findings.py.
The constant empty `compliance` list is omitted.  Note: these findings carry
NO `status` field. -/
structure BFinding where
  id : Option String
  title : String
  description : String
  severity : String
  asset : String
  service : String
  asset_criticality : ℚ
  confidence : ℚ
  source : String
deriving DecidableEq

/-- Per-line behaviour of `load_lynis_findings`: only `suggestion[]=` and
`warning[]=` lines yield findings; with at least two pipe-segments the first
is the id and the second the title/description, otherwise the whole payload
is the title/description with a `None` id. -/
def parseBuildLine (rawLine : String) : Option BFinding :=
  let line := pyStrip rawLine
  if line = "" then none
  else if pyStartsWith "suggestion[]=" line ∨ pyStartsWith "warning[]=" line then
    let payload := (pySplit1 '=' line).2
    let parts := pySplit '|' payload
    let idDesc : Option String × String :=
      if 2 ≤ parts.length then (some (pyStrip (parts.headD "")), pyStrip (parts.getD 1 ""))
      else (none, payload)
    let sev := if pyStartsWith "warning[]=" line then "medium" else "low"
    some { id := idDesc.1, title := idDesc.2, description := idDesc.2, severity := sev,
           asset := "kaliscanner", service := "linux",
           asset_criticality := 1, confidence := 1, source := "linux" }
  else none

/-- The host-audit line of the C1 example. -/
def c1line : String :=
  "warning[]=FIRE-4512|iptables module(s) loaded, but no rules active|extra"

example :
    parseLynisLine none c1line =
      some ⟨none, "linux", some "FIRE-4512", "Warning",
            "iptables module(s) loaded, but no rules active|extra", "fail", "medium"⟩ := by
  decide

example :
    parseBuildLine c1line =
      some ⟨some "FIRE-4512", "iptables module(s) loaded, but no rules active",
            "iptables module(s) loaded, but no rules active", "medium",
            "kaliscanner", "linux", 1, 1, "linux"⟩ := by
  decide

example :
    (parseLynisLine none c1line).map adaptLynis =
      some ⟨"linux", "lynis", none, some "linux", some "FIRE-4512", some "Warning",
            some "iptables module(s) loaded, but no rules active|extra", "fail", "medium"⟩ := by
  decide

-- ---------------------------------------------------------------------------
-- normalize.py : dedupe key and the dedupe loop  (lines 381-410, 444-454)
-- ---------------------------------------------------------------------------

/-- `make_dedupe_key` of normalize.py up to the final SHA-256: the code hashes
exactly this pipe-joined string, and SHA-256 is a function, so equal joined
strings give equal stored keys.  (Collisions of SHA-256 itself are out of
scope of the model.) -/
def dedupeKey (f : UnifiedFinding) : String :=
  pyJoin "|"
    [f.source, f.scanner, f.asset.getD "", f.service.getD "",
     f.control_id.getD "", f.title.getD "", f.status]

/-- The per-record dedupe loop of `normalize_files`: keep a finding only when
its key is unseen, threading the `seen` set (modelled as a list of keys). -/
def dedupeStep : List UnifiedFinding → List String → List UnifiedFinding × List String
  | [], seen => ([], seen)
  | f :: fs, seen =>
    if dedupeKey f ∈ seen then dedupeStep fs seen
    else
      let r := dedupeStep fs (dedupeKey f :: seen)
      (f :: r.1, r.2)

/-- Deduplicated output for one batch of findings, starting from an empty
`seen` set. -/
def dedupeFindings (fs : List UnifiedFinding) : List UnifiedFinding :=
  (dedupeStep fs []).1

/-- The stderr warning emitted by `normalize_files` when an input cannot be
read or parsed. -/
def warnLine (p e : String) : String :=
  "[warn] Could not read " ++ p ++ ": " ++ e

/-- The loop of `normalize_files` (lines 381-410).  Each input path is
represented by the outcome of reading+parsing+adapting it: `Except.error e`
when the `try` block raised, `Except.ok fs` with the adapted findings
otherwise.  Returns the retained findings and the stderr warning lines. -/
def normFilesGo :
    List (String × Except String (List UnifiedFinding)) → List String →
    List UnifiedFinding × List String
  | [], _ => ([], [])
  | (p, Except.error e) :: rest, seen =>
    let r := normFilesGo rest seen
    (r.1, warnLine p e :: r.2)
  | (_, Except.ok fs) :: rest, seen =>
    let d := dedupeStep fs seen
    let r := normFilesGo rest d.2
    (d.1 ++ r.1, r.2)

/-- `normalize_files` of normalize.py over pre-read inputs. -/
def normalizeFiles (inputs : List (String × Except String (List UnifiedFinding))) :
    List UnifiedFinding × List String :=
  normFilesGo inputs []

/-- The warning lines determined by the inputs alone. -/
def warningsOf (inputs : List (String × Except String (List UnifiedFinding))) :
    List String :=
  inputs.filterMap (fun pe =>
    match pe.2 with
    | Except.error e => some (warnLine pe.1 e)
    | Except.ok _ => none)

-- ---------------------------------------------------------------------------
-- score_and_report.py : weights, scoring, grading  (lines 14-28, 191-202)
-- ---------------------------------------------------------------------------

/-- `SEVERITY_WEIGHT` of score_and_report.py. -/
def SEVERITY_WEIGHT : List (String × ℚ) :=
  [("critical", 10), ("high", 7), ("medium", 4), ("low", 1), ("info", 0)]

/-- Model of Python `round(x, 2)` over exact rationals: round half to even at
two decimal places.  (The binary floating-point representation error of the
Python value is below the granularity relevant to any claim here.) -/
def round2 (q : ℚ) : ℚ :=
  let n : ℚ := q * 100
  let f : ℤ := ⌊n⌋
  let r : ℚ := n - (f : ℚ)
  let k : ℤ :=
    if r < 1 / 2 then f
    else if 1 / 2 < r then f + 1
    else if f % 2 = 0 then f else f + 1
  (k : ℚ) / 100

/-- Evaluation helper for `round2` in the round-down case: when the fractional
part of `q * 100` above its floor `f` is below one half, the rounded value is
`f / 100`. -/
theorem round2_low (q : ℚ) (f : ℤ) (h1 : (f : ℚ) ≤ q * 100)
    (h2 : q * 100 < (f : ℚ) + 1) (h3 : q * 100 - (f : ℚ) < 1 / 2) :
    round2 q = (f : ℚ) / 100 := by
  have hf : ⌊q * 100⌋ = f := by
    rw [Int.floor_eq_iff]
    exact ⟨h1, by exact_mod_cast h2⟩
  simp only [round2, hf, if_pos h3]

/-- One record as seen by `score_finding`: the severity token and the two
optional numeric multipliers (`none` models both an absent key and `None`). -/
structure ScoreRecord where
  severity : Option String
  asset_criticality : Option ℚ
  confidence : Option ℚ
deriving DecidableEq

/-- Severity weight resolution of `score_finding`:
`SEVERITY_WEIGHT.get((f.get("severity") or "").lower().strip(), 0)`. -/
def sevWeightOf (s : Option String) : ℚ :=
  (SEVERITY_WEIGHT.lookup (pyStrip (pyLower (s.getD "")))).getD 0

/-- Model of `float(f.get(k, 1.0) or 1.0)`: absent / `None` / `0` all become
`1`. -/
def orOne (x : Option ℚ) : ℚ :=
  match x with
  | none => 1
  | some v => if v = 0 then 1 else v

/-- `score_finding` of score_and_report.py (lines 191-196). -/
def scoreFinding (f : ScoreRecord) : ℚ :=
  round2 (sevWeightOf f.severity * orOne f.asset_criticality * orOne f.confidence)

/-- `GRADE_THRESHOLDS` of score_and_report.py. -/
def GRADE_THRESHOLDS : List (String × ℚ × ℚ) :=
  [("A", 0, 10), ("B", 11, 25), ("C", 26, 50), ("D", 51, 80), ("F", 81, 1000000000)]

/-- The loop of `grade_from_score`: first band whose inclusive bounds contain
the total, `"F"` when no band matches. -/
def gradeGo : List (String × ℚ × ℚ) → ℚ → String
  | [], _ => "F"
  | (g, lo, hi) :: rest, t => if lo ≤ t ∧ t ≤ hi then g else gradeGo rest t

/-- `grade_from_score` of score_and_report.py (lines 198-202). -/
def gradeFromScore (t : ℚ) : String :=
  gradeGo GRADE_THRESHOLDS t

/-- The total computed in `main` of score_and_report.py:
`round(sum(f["_score"] for f in cleaned), 2)`. -/
def totalScore (fs : List ScoreRecord) : ℚ :=
  round2 ((fs.map scoreFinding).sum)

/-- Resolved weights of the five closed severities under `sevWeightOf`. -/
theorem sevWeightOf_eval :
    sevWeightOf (some "critical") = 10 ∧ sevWeightOf (some "high") = 7 ∧
    sevWeightOf (some "medium") = 4 ∧ sevWeightOf (some "low") = 1 ∧
    sevWeightOf (some "info") = 0 := by
  refine ⟨?_, ?_, ?_, ?_, ?_⟩ <;>
    simp [sevWeightOf, SEVERITY_WEIGHT, List.lookup, show pyStrip (pyLower "critical") = "critical" from by decide,
      show pyStrip (pyLower "high") = "high" from by decide,
      show pyStrip (pyLower "medium") = "medium" from by decide,
      show pyStrip (pyLower "low") = "low" from by decide,
      show pyStrip (pyLower "info") = "info" from by decide]

example : scoreFinding ⟨some "high", some 2, some (1 / 2)⟩ = 7 := by
  have h := sevWeightOf_eval.2.1
  simp only [scoreFinding, h, orOne]
  rw [if_neg (by norm_num), if_neg (by norm_num),
    round2_low _ 700 (by norm_num) (by norm_num) (by norm_num)]
  norm_num

example : gradeFromScore 21 = "B" := by
  simp only [gradeFromScore, GRADE_THRESHOLDS, gradeGo]
  rw [if_neg (by norm_num), if_pos (by norm_num)]

example : gradeFromScore (21 / 2) = "F" := by
  simp only [gradeFromScore, GRADE_THRESHOLDS, gradeGo]
  rw [if_neg (by norm_num), if_neg (by norm_num), if_neg (by norm_num),
    if_neg (by norm_num), if_neg (by norm_num)]

-- ---------------------------------------------------------------------------
-- normalize.py : adapt_prowler  (lines 108-121)
-- ---------------------------------------------------------------------------

/-- A raw cloud-scanner record, restricted to the keys `adapt_prowler`
reads (string-valued; `none` is an absent key). -/
structure ProwlerRecord where
  resource : Option String
  account_id : Option String
  service : Option String
  check_id : Option String
  check_title : Option String
  description : Option String
  status : Option String
  severity : Option String
deriving DecidableEq

/-- `adapt_prowler` of normalize.py applied to a record whose keys use the
lower-case spellings (the capitalised fallbacks of each `or` chain are then
`None` and drop out as written here). -/
def adaptProwler (r : ProwlerRecord) : UnifiedFinding :=
  { source := "aws"
    scanner := "prowler"
    asset := sOpt (pyOr r.resource r.account_id)
    service := sOpt r.service
    control_id := sOpt r.check_id
    title := sOpt r.check_title
    description := sOpt r.description
    status := normStatus r.status
    severity := normSeverity r.severity }

-- ---------------------------------------------------------------------------
-- score_and_report.py : lynis title patching  (lines 154-185)
-- ---------------------------------------------------------------------------

/-- A finding as handled by `patch_linux_titles` (a record of the combined
findings JSON; only the keys the function touches or that must stay intact
are modelled). -/
structure LFinding where
  id : Option String
  title : Option String
  description : Option String
  severity : Option String
  asset : Option String
  service : Option String
deriving DecidableEq

/-- The guard of `patch_linux_titles` on one finding: host asset
`"kaliscanner"`, service `"linux"`, and a missing / empty / placeholder
title. -/
def patchCond (f : LFinding) : Bool :=
  (f.asset == some "kaliscanner") && (f.service == some "linux") &&
    (f.title == none || f.title == some "" || f.title == some "Suggestion")

/-- Per-line behaviour of `get_lynis_descriptions` (lines 154-169): the
second pipe-segment of `suggestion[]=` / `warning[]=` lines, stripped. -/
def getLynisDescLine (rawLine : String) : Option String :=
  let line := pyStrip rawLine
  if line = "" then none
  else if pyStartsWith "suggestion[]=" line ∨ pyStartsWith "warning[]=" line then
    let payload := (pySplit1 '=' line).2
    let parts := pySplit '|' payload
    if 2 ≤ parts.length then some (pyStrip (parts.getD 1 "")) else none
  else none

/-- `get_lynis_descriptions` over the lines of the lynis report file. -/
def getLynisDescriptions (lines : List String) : List String :=
  lines.filterMap getLynisDescLine

/-- The loop of `patch_linux_titles`: walk the findings, and when the guard
holds and descriptions remain, replace the title with the next description. -/
def patchGo (descs : List String) : Nat → List LFinding → List LFinding
  | _, [] => []
  | idx, f :: fs =>
    if patchCond f = true ∧ idx < descs.length then
      { f with title := some (descs.getD idx "") } :: patchGo descs (idx + 1) fs
    else f :: patchGo descs idx fs

/-- `patch_linux_titles` of score_and_report.py (lines 172-185), with the
description list (read from the report file in the code) as a parameter. -/
def patchLinuxTitles (descs : List String) (fs : List LFinding) : List LFinding :=
  if descs.isEmpty then fs else patchGo descs 0 fs

-- ---------------------------------------------------------------------------
-- Average-risk grading (spec section 4.5)
-- ---------------------------------------------------------------------------

/-- Modelled from the spec: no average-risk grading path exists in the source
files shipped under scrutiny (its report-generation callers are outside
them); the spec gives it the alternate weight table critical=5, high=3,
medium=2, low=1, info=0. -/
def AVG_SEVERITY_WEIGHT : List (String × ℚ) :=
  [("critical", 5), ("high", 3), ("medium", 2), ("low", 1), ("info", 0)]

/-- Modelled from the spec: the mean weight per finding under the alternate
weight table. -/
def avgRisk (sevs : List String) : ℚ :=
  ((sevs.map (fun s => (AVG_SEVERITY_WEIGHT.lookup s).getD 0)).sum) / (sevs.length : ℚ)

/-- Modelled from the spec: the six-band mean-weight grading
`A ≤0.5, B ≤1.5, C ≤2.5, D ≤3.5, E ≤4.5, F >4.5`. -/
def gradeFromAvg (a : ℚ) : String :=
  if a ≤ 1 / 2 then "A"
  else if a ≤ 3 / 2 then "B"
  else if a ≤ 5 / 2 then "C"
  else if a ≤ 7 / 2 then "D"
  else if a ≤ 9 / 2 then "E"
  else "F"

example : avgRisk ["critical", "critical", "low"] = 11 / 3 := by
  simp [avgRisk, AVG_SEVERITY_WEIGHT, List.lookup]
  norm_num

example : gradeFromAvg (11 / 3) = "E" := by
  simp only [gradeFromAvg]
  rw [if_neg (by norm_num), if_neg (by norm_num), if_neg (by norm_num),
    if_neg (by norm_num), if_pos (by norm_num)]

-- ---------------------------------------------------------------------------
-- Lemmas about the severity / status normalizer
-- ---------------------------------------------------------------------------

/-- A successful association-list lookup returns one of the stored values. -/
theorem lookup_val_mem {α β : Type} [BEq α] (l : List (α × β)) (k : α) (b : β)
    (h : l.lookup k = some b) : b ∈ l.map Prod.snd := by
  induction l with
  | nil => simp [List.lookup] at h
  | cons p t ih =>
    cases p with
    | mk a v =>
      rw [List.lookup] at h
      split at h
      · cases h; exact List.mem_cons_self _ _
      · exact List.mem_cons_of_mem _ (ih h)

/-- Every value of `sevCore` lies in the closed severity vocabulary. -/
theorem sevCore_mem (v : String) : sevCore v ∈ sevClosed := by
  rw [sevCore]
  cases h : SEVERITY_MAP.lookup v with
  | none =>
    by_cases hv : v ∈ sevClosed
    · rw [if_pos hv]; exact hv
    · rw [if_neg hv]; decide
  | some r =>
    have hm := lookup_val_mem _ _ _ h
    simp only [SEVERITY_MAP, List.map] at hm
    fin_cases hm <;> simp [sevClosed]

/-- Every value of `statCore` lies in the closed status vocabulary. -/
theorem statCore_mem (v : String) : statCore v ∈ statClosed := by
  rw [statCore]
  cases h : STATUS_MAP.lookup v with
  | none =>
    by_cases hv : v ∈ statClosed
    · rw [if_pos hv]; exact hv
    · rw [if_neg hv]; decide
  | some r =>
    have hm := lookup_val_mem _ _ _ h
    simp only [STATUS_MAP, List.map] at hm
    fin_cases hm <;> simp [statClosed]

/-- `_norm_severity` factors through the cleaned (stripped, lower-cased)
token. -/
theorem normSeverity_core (s : String) :
    normSeverity (some s) = sevCore (pyLower (pyStrip s)) := by
  by_cases hs : s = ""
  · subst hs; decide
  · simp [normSeverity, hs]

/-- `_norm_status` factors through the cleaned token. -/
theorem normStatus_core (s : String) :
    normStatus (some s) = statCore (pyLower (pyStrip s)) := by
  by_cases hs : s = ""
  · subst hs; decide
  · simp [normStatus, hs]

/-- C3: for every input token (string or missing), `_norm_severity` returns a
member of {critical, high, medium, low, info} and `_norm_status` a member of
{pass, fail, warn, info}; every alias of the two tables (numeric severity
codes included) maps to its documented value; absent and unrecognized tokens
map to "info"; and matching is insensitive to case and surrounding
whitespace (tokens with the same stripped lower-cased form normalize
alike). -/
theorem norm_token_closed_spec :
    (∀ v : Option String, normSeverity v ∈ sevClosed ∧ normStatus v ∈ statClosed) ∧
    (∀ p ∈ SEVERITY_MAP, normSeverity (some p.1) = p.2) ∧
    (∀ p ∈ STATUS_MAP, normStatus (some p.1) = p.2) ∧
    (normSeverity none = "info" ∧ normStatus none = "info") ∧
    (∀ s : String, SEVERITY_MAP.lookup (pyLower (pyStrip s)) = none →
      pyLower (pyStrip s) ∉ sevClosed → normSeverity (some s) = "info") ∧
    (∀ s : String, STATUS_MAP.lookup (pyLower (pyStrip s)) = none →
      pyLower (pyStrip s) ∉ statClosed → normStatus (some s) = "info") ∧
    (∀ s t : String, pyLower (pyStrip s) = pyLower (pyStrip t) →
      normSeverity (some s) = normSeverity (some t) ∧
      normStatus (some s) = normStatus (some t)) := by
  refine ⟨?_, by decide, by decide, ⟨rfl, rfl⟩, ?_, ?_, ?_⟩
  · intro v
    cases v with
    | none => exact ⟨by decide, by decide⟩
    | some s =>
      rw [normSeverity_core, normStatus_core]
      exact ⟨sevCore_mem _, statCore_mem _⟩
  · intro s h1 h2
    rw [normSeverity_core, sevCore, h1, if_neg h2]
  · intro s h1 h2
    rw [normStatus_core, statCore, h1, if_neg h2]
  · intro s t h
    rw [normSeverity_core, normStatus_core, normSeverity_core, normStatus_core, h]
    exact ⟨rfl, rfl⟩

/-- Witness for C3 at concrete tokens: an unrecognized token normalizes to
"info", and a token differing only in case and padding normalizes like its
clean form. -/
theorem norm_token_closed_spec_witness :
    normSeverity (some "bogus-token") = "info" ∧
    normStatus (some " WARNING ") = normStatus (some "warning") :=
  ⟨norm_token_closed_spec.2.2.2.2.1 "bogus-token" (by decide) (by decide),
   (norm_token_closed_spec.2.2.2.2.2.2 " WARNING " "warning" (by decide)).2⟩

-- ---------------------------------------------------------------------------
-- C1 : host-audit line parsing
-- ---------------------------------------------------------------------------

/-- The title/status/severity arguments pass through `_rec` unchanged in
every branch. -/
theorem lynisRec_fixed (host : Option String) (v t st sev : String) :
    (lynisRec host v t st sev).title = t ∧ (lynisRec host v t st sev).status = st ∧
    (lynisRec host v t st sev).severity = sev := by
  rw [lynisRec]
  split
  · split
    · exact ⟨rfl, rfl, rfl⟩
    · split
      · exact ⟨rfl, rfl, rfl⟩
      · exact ⟨rfl, rfl, rfl⟩
  · exact ⟨rfl, rfl, rfl⟩

/-- The key `parse_lynis_dat` computes for a line:
`key.strip().lower()` of the text before the first `=` of the stripped
line.  The warning/suggestion/hint dispatch tests this key. -/
def lynisLineKey (rawLine : String) : String :=
  pyLower (pyStrip (pySplit1 '=' (pyStrip rawLine)).1)

/-- The marker on the line key determines the emitted record: `warning[`
keys give (Warning, medium, fail), keys that are not `warning[` but are
`suggestion[` give (Suggestion, low, warn), keys that are neither but are
`hint[` give (Hint, info, info) — mirroring the elif chain of
`parse_lynis_dat` — and the parser emits a record only when the key carries
one of the three markers.  `adapt_lynis` passes severity and status
through unchanged. -/
theorem parseLynisLine_marker (host : Option String) (line : String) (r : LynisRecord)
    (h : parseLynisLine host line = some r) :
    (pyStartsWith "warning[" (lynisLineKey line) = true →
      r.title = "Warning" ∧ r.severity = "medium" ∧ r.status = "fail" ∧
      (adaptLynis r).severity = "medium" ∧ (adaptLynis r).status = "fail") ∧
    (pyStartsWith "warning[" (lynisLineKey line) = false →
      pyStartsWith "suggestion[" (lynisLineKey line) = true →
      r.title = "Suggestion" ∧ r.severity = "low" ∧ r.status = "warn" ∧
      (adaptLynis r).severity = "low" ∧ (adaptLynis r).status = "warn") ∧
    (pyStartsWith "warning[" (lynisLineKey line) = false →
      pyStartsWith "suggestion[" (lynisLineKey line) = false →
      pyStartsWith "hint[" (lynisLineKey line) = true →
      r.title = "Hint" ∧ r.severity = "info" ∧ r.status = "info" ∧
      (adaptLynis r).severity = "info" ∧ (adaptLynis r).status = "info") ∧
    (pyStartsWith "warning[" (lynisLineKey line) = true ∨
     pyStartsWith "suggestion[" (lynisLineKey line) = true ∨
     pyStartsWith "hint[" (lynisLineKey line) = true) := by
  rw [parseLynisLine] at h
  split at h
  · exact absurd h (by simp)
  · dsimp only at h
    rw [show pyLower (pyStrip (pySplit1 '=' (pyStrip line)).1) = lynisLineKey line
      from rfl] at h
    split at h
    · rename_i hw
      cases h
      obtain ⟨ht, hst, hsev⟩ := lynisRec_fixed host _ "Warning" "fail" "medium"
      refine ⟨fun _ => ⟨ht, hsev, hst, ?_, ?_⟩,
        fun hwf => absurd hw (by rw [hwf]; exact Bool.noConfusion),
        fun hwf _ _ => absurd hw (by rw [hwf]; exact Bool.noConfusion), Or.inl hw⟩
      · simp only [adaptLynis, hsev]; decide
      · simp only [adaptLynis, hst]; decide
    · rename_i hw
      split at h
      · rename_i hs
        cases h
        obtain ⟨ht, hst, hsev⟩ := lynisRec_fixed host _ "Suggestion" "warn" "low"
        refine ⟨fun hwt => absurd hwt hw,
          fun _ _ => ⟨ht, hsev, hst, ?_, ?_⟩,
          fun _ hsf _ => absurd hs (by rw [hsf]; exact Bool.noConfusion),
          Or.inr (Or.inl hs)⟩
        · simp only [adaptLynis, hsev]; decide
        · simp only [adaptLynis, hst]; decide
      · rename_i hs
        split at h
        · rename_i hh
          cases h
          obtain ⟨ht, hst, hsev⟩ := lynisRec_fixed host _ "Hint" "info" "info"
          refine ⟨fun hwt => absurd hwt hw, fun _ hst2 => absurd hst2 hs,
            fun _ _ _ => ⟨ht, hsev, hst, ?_, ?_⟩, Or.inr (Or.inr hh)⟩
          · simp only [adaptLynis, hsev]; decide
          · simp only [adaptLynis, hst]; decide
        · exact absurd h (by simp)

/-- The record of the C1 example line under `parse_lynis_dat`. -/
def c1rec : LynisRecord :=
  ⟨none, "linux", some "FIRE-4512", "Warning",
   "iptables module(s) loaded, but no rules active|extra", "fail", "medium"⟩

/-- C1 (amended): for the line
`warning[]=FIRE-4512|iptables module(s) loaded, but no rules active|extra`,
the build_findings parser (`load_lynis_findings`) yields id `FIRE-4512`,
title and description both equal to the second pipe-segment only (trailing
segments dropped), severity `medium`, and no status field at all; the
normalize.py parser (`parse_lynis_dat` + `adapt_lynis`) yields control_id
`FIRE-4512`, the fixed title `Warning`, a description that RETAINS the
trailing segments (`iptables module(s) loaded, but no rules active|extra`),
severity `medium` and status `fail`; and in general `parse_lynis_dat` maps
each line kind to its own pair — a `warning[` key to title `Warning`,
severity `medium`, status `fail`; a non-warning `suggestion[` key to
`Suggestion`, `low`, `warn`; a key carrying neither marker but `hint[` to
`Hint`, `info`, `info`; no other key yields a record — and `adapt_lynis`
passes severity and status through unchanged. -/
theorem lynis_warning_line_parse :
    (parseBuildLine c1line =
      some ⟨some "FIRE-4512", "iptables module(s) loaded, but no rules active",
            "iptables module(s) loaded, but no rules active", "medium",
            "kaliscanner", "linux", 1, 1, "linux"⟩) ∧
    ((parseLynisLine none c1line).map adaptLynis =
      some ⟨"linux", "lynis", none, some "linux", some "FIRE-4512", some "Warning",
            some "iptables module(s) loaded, but no rules active|extra", "fail", "medium"⟩) ∧
    (∀ (host : Option String) (line : String) (r : LynisRecord),
      parseLynisLine host line = some r →
        (pyStartsWith "warning[" (lynisLineKey line) = true →
          r.title = "Warning" ∧ r.severity = "medium" ∧ r.status = "fail" ∧
          (adaptLynis r).severity = "medium" ∧ (adaptLynis r).status = "fail") ∧
        (pyStartsWith "warning[" (lynisLineKey line) = false →
          pyStartsWith "suggestion[" (lynisLineKey line) = true →
          r.title = "Suggestion" ∧ r.severity = "low" ∧ r.status = "warn" ∧
          (adaptLynis r).severity = "low" ∧ (adaptLynis r).status = "warn") ∧
        (pyStartsWith "warning[" (lynisLineKey line) = false →
          pyStartsWith "suggestion[" (lynisLineKey line) = false →
          pyStartsWith "hint[" (lynisLineKey line) = true →
          r.title = "Hint" ∧ r.severity = "info" ∧ r.status = "info" ∧
          (adaptLynis r).severity = "info" ∧ (adaptLynis r).status = "info") ∧
        (pyStartsWith "warning[" (lynisLineKey line) = true ∨
         pyStartsWith "suggestion[" (lynisLineKey line) = true ∨
         pyStartsWith "hint[" (lynisLineKey line) = true)) :=
  ⟨by decide, by decide, parseLynisLine_marker⟩

/-- Witness for C1 at the example line: its key carries the `warning[`
marker, and the record parsed from it has title `Warning`, severity
`medium`, status `fail`, which the adapter preserves. -/
theorem lynis_warning_line_parse_witness :
    c1rec.title = "Warning" ∧ c1rec.severity = "medium" ∧ c1rec.status = "fail" ∧
    (adaptLynis c1rec).severity = "medium" ∧ (adaptLynis c1rec).status = "fail" :=
  (lynis_warning_line_parse.2.2 none c1line c1rec (by decide)).1 (by decide)

/-- Counterexample to C1 as stated: under `parse_lynis_dat` + `adapt_lynis`
the finding's title is the fixed string `Warning`, not the message, and its
description keeps the trailing pipe-segment instead of dropping it. -/
theorem lynis_warning_line_counterexample :
    ((parseLynisLine none c1line).map adaptLynis).map UnifiedFinding.title =
      some (some "Warning") ∧
    ((parseLynisLine none c1line).map adaptLynis).map UnifiedFinding.description =
      some (some "iptables module(s) loaded, but no rules active|extra") ∧
    "Warning" ≠ "iptables module(s) loaded, but no rules active" ∧
    "iptables module(s) loaded, but no rules active|extra" ≠
      "iptables module(s) loaded, but no rules active" := by
  decide

-- ---------------------------------------------------------------------------
-- C4 / C10 : deduplication
-- ---------------------------------------------------------------------------

/-- The dedupe loop only ever drops findings: its output is a sublist of its
input (retention in the original relative order). -/
theorem dedupeStep_sublist (fs : List UnifiedFinding) :
    ∀ seen, (dedupeStep fs seen).1.Sublist fs := by
  induction fs with
  | nil => intro seen; simp [dedupeStep]
  | cons f fs ih =>
    intro seen
    rw [dedupeStep]
    split
    · exact (ih seen).cons f
    · exact (ih (dedupeKey f :: seen)).cons₂ f

/-- Nothing retained by the dedupe loop has a key that was already seen. -/
theorem dedupeStep_not_seen (fs : List UnifiedFinding) :
    ∀ seen g, g ∈ (dedupeStep fs seen).1 → dedupeKey g ∉ seen := by
  induction fs with
  | nil => intro seen g hg; simp [dedupeStep] at hg
  | cons f fs ih =>
    intro seen g hg
    rw [dedupeStep] at hg
    split at hg
    · exact ih seen g hg
    · rcases List.mem_cons.mp hg with h | h
      · subst h; assumption
      · intro hk
        exact ih (dedupeKey f :: seen) g h (List.mem_cons_of_mem _ hk)

/-- Retained findings have pairwise distinct dedupe keys. -/
theorem dedupeStep_pairwise (fs : List UnifiedFinding) :
    ∀ seen, (dedupeStep fs seen).1.Pairwise (fun a b => dedupeKey a ≠ dedupeKey b) := by
  induction fs with
  | nil => intro seen; simp [dedupeStep]
  | cons f fs ih =>
    intro seen
    rw [dedupeStep]
    split
    · exact ih seen
    · refine List.Pairwise.cons ?_ (ih (dedupeKey f :: seen))
      intro b hb hk
      exact dedupeStep_not_seen fs (dedupeKey f :: seen) b hb (by rw [← hk]; exact List.mem_cons_self _ _)

/-- Every input finding whose key is not already seen has a retained
representative with the same key. -/
theorem dedupeStep_repr (fs : List UnifiedFinding) :
    ∀ seen f, f ∈ fs → dedupeKey f ∉ seen →
      ∃ g ∈ (dedupeStep fs seen).1, dedupeKey g = dedupeKey f := by
  induction fs with
  | nil => intro seen f hf; simp at hf
  | cons x fs ih =>
    intro seen f hf hs
    rw [dedupeStep]
    split
    · rcases List.mem_cons.mp hf with h | h
      · subst h; exact absurd (by assumption) hs
      · exact ih seen f h hs
    · rcases List.mem_cons.mp hf with h | h
      · subst h
        exact ⟨f, List.mem_cons_self _ _, rfl⟩
      · by_cases hk : dedupeKey f = dedupeKey x
        · exact ⟨x, List.mem_cons_self _ _, hk.symm⟩
        · have hs2 : dedupeKey f ∉ dedupeKey x :: seen := by
            intro hm
            rcases List.mem_cons.mp hm with h2 | h2
            · exact hk h2
            · exact hs h2
          obtain ⟨g, hg, hgk⟩ := ih (dedupeKey x :: seen) f h hs2
          exact ⟨g, List.mem_cons_of_mem _ hg, hgk⟩

/-- The first occurrence of a key is retained: a finding preceded only by
findings with other keys survives the dedupe loop. -/
theorem dedupeStep_first (f : UnifiedFinding) :
    ∀ (xs ys : List UnifiedFinding) (seen : List String),
      (∀ x ∈ xs, dedupeKey x ≠ dedupeKey f) → dedupeKey f ∉ seen →
      f ∈ (dedupeStep (xs ++ f :: ys) seen).1 := by
  intro xs
  induction xs with
  | nil =>
    intro ys seen _ hs
    rw [List.nil_append, dedupeStep]
    rw [if_neg hs]
    exact List.mem_cons_self _ _
  | cons x xs ih =>
    intro ys seen hxs hs
    rw [List.cons_append, dedupeStep]
    split
    · exact ih ys seen (fun a ha => hxs a (List.mem_cons_of_mem _ ha)) hs
    · refine List.mem_cons_of_mem _ (ih ys (dedupeKey x :: seen) ?_ ?_)
      · exact fun a ha => hxs a (List.mem_cons_of_mem _ ha)
      · intro hm
        rcases List.mem_cons.mp hm with h2 | h2
        · exact hxs x (List.mem_cons_self _ _) h2.symm
        · exact hs h2

/-- C4 (amended): the dedupe loop keeps only first occurrences of each
dedupe key: the output is a sublist of the input (order preserved), retained
findings have pairwise distinct keys (so at most one per agreeing tuple, and
no merging happens), every input key keeps exactly its first-occurrence
representative, and equal field tuples give equal keys; `normalize_files`
over one readable input is exactly this loop.  (Findings that differ on the
tuple are NOT all retained: the key is the pipe-joined tuple, which can
collide — see the counterexample.) -/
theorem dedupe_first_occurrence_spec :
    (∀ fs : List UnifiedFinding, (dedupeFindings fs).Sublist fs) ∧
    (∀ fs : List UnifiedFinding,
      (dedupeFindings fs).Pairwise (fun a b => dedupeKey a ≠ dedupeKey b)) ∧
    (∀ (fs : List UnifiedFinding) (f : UnifiedFinding), f ∈ fs →
      ∃ g ∈ dedupeFindings fs, dedupeKey g = dedupeKey f) ∧
    (∀ (xs : List UnifiedFinding) (f : UnifiedFinding) (ys : List UnifiedFinding),
      (∀ x ∈ xs, dedupeKey x ≠ dedupeKey f) → f ∈ dedupeFindings (xs ++ f :: ys)) ∧
    (∀ f g : UnifiedFinding, f.source = g.source → f.scanner = g.scanner →
      f.asset = g.asset → f.service = g.service → f.control_id = g.control_id →
      f.title = g.title → f.status = g.status → dedupeKey f = dedupeKey g) ∧
    (∀ (p : String) (fs : List UnifiedFinding),
      (normalizeFiles [(p, Except.ok fs)]).1 = dedupeFindings fs) := by
  refine ⟨?_, ?_, ?_, ?_, ?_, ?_⟩
  · intro fs; exact dedupeStep_sublist fs []
  · intro fs; exact dedupeStep_pairwise fs []
  · intro fs f hf; exact dedupeStep_repr fs [] f hf (List.not_mem_nil _)
  · intro xs f ys hxs; exact dedupeStep_first f xs ys [] hxs (List.not_mem_nil _)
  · intro f g h1 h2 h3 h4 h5 h6 h7
    rw [dedupeKey, dedupeKey, h1, h2, h3, h4, h5, h6, h7]
  · intro p fs
    rw [normalizeFiles, normFilesGo, normFilesGo]
    simp [dedupeFindings]

/-- The two colliding prowler records of the C4 counterexample: the pipe
character placed inside the asset of one and the service of the other. -/
def cexRecA : ProwlerRecord :=
  { resource := some "x|y", account_id := none, service := some "z",
    check_id := some "CHK-1", check_title := some "t", description := some "d",
    status := some "FAIL", severity := some "high" }

/-- Second colliding record (differs from `cexRecA` on asset and service). -/
def cexRecB : ProwlerRecord :=
  { resource := some "x", account_id := none, service := some "y|z",
    check_id := some "CHK-1", check_title := some "t", description := some "d",
    status := some "FAIL", severity := some "high" }

/-- Counterexample to C4 as stated: the two adapted findings differ on the
(source, scanner, asset, service, control_id, title, status) tuple — their
assets and services differ — yet the deduplicator drops the second, so
findings that differ on the tuple are not all retained. -/
theorem dedupe_first_occurrence_counterexample :
    (adaptProwler cexRecA).asset ≠ (adaptProwler cexRecB).asset ∧
    (adaptProwler cexRecA).service ≠ (adaptProwler cexRecB).service ∧
    dedupeFindings [adaptProwler cexRecA, adaptProwler cexRecB] =
      [adaptProwler cexRecA] := by
  decide

/-- Witness for C4 at a concrete duplicate pair: the first occurrence
survives deduplication. -/
theorem dedupe_first_occurrence_spec_witness :
    adaptProwler cexRecA ∈
      dedupeFindings ([] ++ adaptProwler cexRecA :: [adaptProwler cexRecA]) :=
  dedupe_first_occurrence_spec.2.2.2.1 [] (adaptProwler cexRecA)
    [adaptProwler cexRecA] (by simp)

/-- C10: the dedupe key (the pipe-joined field tuple fed to SHA-256) is not
injective on the field tuple: these two findings differ on asset and
service — and are unequal as findings — yet their joined key strings are
equal (hence their SHA-256 digests are equal), and the deduplicator keeps
only the first of them. -/
theorem dedupe_key_not_injective :
    (adaptProwler cexRecA ≠ adaptProwler cexRecB) ∧
    (adaptProwler cexRecA).asset ≠ (adaptProwler cexRecB).asset ∧
    dedupeKey (adaptProwler cexRecA) = dedupeKey (adaptProwler cexRecB) ∧
    dedupeFindings [adaptProwler cexRecA, adaptProwler cexRecB] =
      [adaptProwler cexRecA] := by
  decide

-- ---------------------------------------------------------------------------
-- C7 : per-file failures are skipped
-- ---------------------------------------------------------------------------

/-- The warning stream of the normalize loop depends only on which inputs
failed, never on the dedupe state. -/
theorem normFilesGo_snd (ins : List (String × Except String (List UnifiedFinding))) :
    ∀ seen, (normFilesGo ins seen).2 = warningsOf ins := by
  induction ins with
  | nil => intro seen; simp [normFilesGo, warningsOf]
  | cons pe rest ih =>
    intro seen
    obtain ⟨p, r⟩ := pe
    cases r with
    | error e => simp [normFilesGo, warningsOf, ih seen]
    | ok fs => simp [normFilesGo, warningsOf, ih]

/-- Removing a failing input does not change the findings the loop returns. -/
theorem normFilesGo_skip_error (p e : String)
    (xs ys : List (String × Except String (List UnifiedFinding))) :
    ∀ seen, (normFilesGo (xs ++ (p, Except.error e) :: ys) seen).1 =
      (normFilesGo (xs ++ ys) seen).1 := by
  induction xs with
  | nil => intro seen; simp [normFilesGo]
  | cons q rest ih =>
    intro seen
    obtain ⟨q1, r⟩ := q
    cases r with
    | error e2 => simp [normFilesGo, ih seen]
    | ok fs => simp [normFilesGo, ih]

/-- C7: when reading or parsing one input raises, `normalize_files` logs one
warning line for it on the error stream (in input order, between the
warnings of the surrounding inputs), skips it, and returns exactly the
findings of the run on the remaining inputs — the failure never propagates
out of the loop. -/
theorem error_skip_spec (p e : String)
    (xs ys : List (String × Except String (List UnifiedFinding))) :
    (normalizeFiles (xs ++ (p, Except.error e) :: ys)).1 =
      (normalizeFiles (xs ++ ys)).1 ∧
    (normalizeFiles (xs ++ (p, Except.error e) :: ys)).2 =
      warningsOf xs ++ warnLine p e :: warningsOf ys := by
  constructor
  · exact normFilesGo_skip_error p e xs ys []
  · rw [normalizeFiles, normFilesGo_snd]
    simp [warningsOf]

/-- Witness for C7 at one concrete failing input between two readable
ones. -/
theorem error_skip_spec_witness :
    (normalizeFiles [("a.json", Except.ok []), ("bad.json", Except.error "boom"),
        ("c.json", Except.ok [])]).1 =
      (normalizeFiles [("a.json", Except.ok []), ("c.json", Except.ok [])]).1 ∧
    (normalizeFiles [("a.json", Except.ok []), ("bad.json", Except.error "boom"),
        ("c.json", Except.ok [])]).2 =
      warningsOf [("a.json", Except.ok [])] ++ warnLine "bad.json" "boom" ::
        warningsOf [("c.json", Except.ok ([] : List UnifiedFinding))] :=
  error_skip_spec "bad.json" "boom" [("a.json", Except.ok [])] [("c.json", Except.ok [])]

-- ---------------------------------------------------------------------------
-- C5 / C6 / C9 : scoring and grading
-- ---------------------------------------------------------------------------

/-- C5 (amended): the computed risk score is the product
severity_weight × asset_criticality × confidence ROUNDED to two decimal
places (Python `round(..., 2)`), with weights critical=10, high=7, medium=4,
low=1, info=0, and with absent (or falsy-zero) criticality/confidence
replaced by 1; a finding with severity high, criticality 2 and confidence
1/2 scores exactly 7. -/
theorem score_formula_spec :
    (sevWeightOf (some "critical") = 10 ∧ sevWeightOf (some "high") = 7 ∧
     sevWeightOf (some "medium") = 4 ∧ sevWeightOf (some "low") = 1 ∧
     sevWeightOf (some "info") = 0) ∧
    (orOne none = 1) ∧
    (∀ x : ℚ, x ≠ 0 → orOne (some x) = x) ∧
    (∀ ac conf : ℚ,
      scoreFinding ⟨some "high", some ac, some conf⟩ =
        round2 (7 * orOne (some ac) * orOne (some conf))) ∧
    (∀ s : Option String, scoreFinding ⟨s, none, none⟩ = round2 (sevWeightOf s)) ∧
    scoreFinding ⟨some "high", some 2, some (1 / 2)⟩ = 7 := by
  refine ⟨sevWeightOf_eval, rfl, ?_, ?_, ?_, ?_⟩
  · intro x hx
    simp [orOne, hx]
  · intro ac conf
    rw [scoreFinding, sevWeightOf_eval.2.1]
  · intro s
    rw [scoreFinding]
    norm_num [orOne]
  · rw [scoreFinding, sevWeightOf_eval.2.1]
    have h2 : orOne (some (2 : ℚ)) = 2 := by norm_num [orOne]
    have h3 : orOne (some ((1 : ℚ) / 2)) = 1 / 2 := by norm_num [orOne]
    rw [h2, h3, round2_low _ 700 (by norm_num) (by norm_num) (by norm_num)]
    norm_num

/-- Witness for C5 at criticality 2, confidence 1/2. -/
theorem score_formula_spec_witness :
    scoreFinding ⟨some "high", some 2, some (1 / 2)⟩ =
      round2 (7 * orOne (some 2) * orOne (some (1 / 2))) ∧
    orOne (some (2 : ℚ)) = 2 :=
  ⟨score_formula_spec.2.2.2.1 2 (1 / 2), score_formula_spec.2.2.1 2 (by norm_num)⟩

/-- Counterexample to C5 as stated: with severity high, criticality 1 and
confidence 0.333 the code returns the rounded value 2.33, which is not the
exact product 7 × 1 × 0.333 = 2.331. -/
theorem score_formula_counterexample :
    scoreFinding ⟨some "high", some 1, some (333 / 1000)⟩ = 233 / 100 ∧
    (233 : ℚ) / 100 ≠ 7 * 1 * (333 / 1000) := by
  constructor
  · rw [scoreFinding, sevWeightOf_eval.2.1]
    have h2 : orOne (some (1 : ℚ)) = 1 := by norm_num [orOne]
    have h3 : orOne (some ((333 : ℚ) / 1000)) = 333 / 1000 := by norm_num [orOne]
    rw [h2, h3, round2_low _ 233 (by norm_num) (by norm_num) (by norm_num)]
    norm_num
  · norm_num

/-- The three findings of the grading examples: severities critical,
critical, low with default criticality/confidence. -/
def threeFindings : List ScoreRecord :=
  [⟨some "critical", none, none⟩, ⟨some "critical", none, none⟩, ⟨some "low", none, none⟩]

/-- Per-finding scores of the example list: 10, 10 and 1. -/
theorem threeFindings_scores :
    threeFindings.map scoreFinding = [10, 10, 1] := by
  have hc : scoreFinding ⟨some "critical", none, none⟩ = 10 := by
    rw [scoreFinding, sevWeightOf_eval.1]
    norm_num [orOne]
    rw [round2_low _ 1000 (by norm_num) (by norm_num) (by norm_num)]
    norm_num
  have hl : scoreFinding ⟨some "low", none, none⟩ = 1 := by
    rw [scoreFinding, sevWeightOf_eval.2.2.2.1]
    norm_num [orOne]
    rw [round2_low _ 100 (by norm_num) (by norm_num) (by norm_num)]
    norm_num
  simp [threeFindings, hc, hl]

/-- C6: total-score grading follows the threshold table A 0–10, B 11–25,
C 26–50, D 51–80, F for 81 and above, and for the three example findings
(critical, critical, low with defaults) the total is 10+10+1 = 21 and the
grade is B. -/
theorem total_grading_spec :
    (∀ t : ℚ, 0 ≤ t → t ≤ 10 → gradeFromScore t = "A") ∧
    (∀ t : ℚ, 11 ≤ t → t ≤ 25 → gradeFromScore t = "B") ∧
    (∀ t : ℚ, 26 ≤ t → t ≤ 50 → gradeFromScore t = "C") ∧
    (∀ t : ℚ, 51 ≤ t → t ≤ 80 → gradeFromScore t = "D") ∧
    (∀ t : ℚ, 81 ≤ t → gradeFromScore t = "F") ∧
    totalScore threeFindings = 21 ∧
    gradeFromScore 21 = "B" := by
  refine ⟨?_, ?_, ?_, ?_, ?_, ?_, ?_⟩
  · intro t h1 h2
    simp only [gradeFromScore, GRADE_THRESHOLDS, gradeGo]
    rw [if_pos ⟨h1, h2⟩]
  · intro t h1 h2
    simp only [gradeFromScore, GRADE_THRESHOLDS, gradeGo]
    rw [if_neg (by rintro ⟨_, h⟩; linarith), if_pos ⟨h1, h2⟩]
  · intro t h1 h2
    simp only [gradeFromScore, GRADE_THRESHOLDS, gradeGo]
    rw [if_neg (by rintro ⟨_, h⟩; linarith), if_neg (by rintro ⟨_, h⟩; linarith),
      if_pos ⟨h1, h2⟩]
  · intro t h1 h2
    simp only [gradeFromScore, GRADE_THRESHOLDS, gradeGo]
    rw [if_neg (by rintro ⟨_, h⟩; linarith), if_neg (by rintro ⟨_, h⟩; linarith),
      if_neg (by rintro ⟨_, h⟩; linarith), if_pos ⟨h1, h2⟩]
  · intro t h1
    simp only [gradeFromScore, GRADE_THRESHOLDS, gradeGo]
    rw [if_neg (by rintro ⟨_, h⟩; linarith), if_neg (by rintro ⟨_, h⟩; linarith),
      if_neg (by rintro ⟨_, h⟩; linarith), if_neg (by rintro ⟨_, h⟩; linarith)]
    by_cases h2 : t ≤ 1000000000
    · rw [if_pos ⟨h1, h2⟩]
    · rw [if_neg (by rintro ⟨_, h⟩; exact h2 h)]
  · rw [totalScore, threeFindings_scores]
    have : ((10 : ℚ) + (10 + (1 + 0))) = 21 := by norm_num
    rw [List.sum_cons, List.sum_cons, List.sum_cons, List.sum_nil, this,
      round2_low _ 2100 (by norm_num) (by norm_num) (by norm_num)]
    norm_num
  · simp only [gradeFromScore, GRADE_THRESHOLDS, gradeGo]
    rw [if_neg (by rintro ⟨_, h⟩; linarith), if_pos (by norm_num)]

/-- Witness for C6: the band B rule applied at the example total 21. -/
theorem total_grading_spec_witness :
    gradeFromScore 21 = "B" ∧ totalScore threeFindings = 21 :=
  ⟨total_grading_spec.2.1 21 (by norm_num) (by norm_num),
   total_grading_spec.2.2.2.2.2.1⟩

/-- C9: every total lying strictly inside one of the gaps between adjacent
bands of the threshold table (10–11, 25–26, 50–51, 80–81) matches no band,
so `grade_from_score` falls through to the `"F"` fallback. -/
theorem grade_gap_fallback (t : ℚ)
    (h : (10 < t ∧ t < 11) ∨ (25 < t ∧ t < 26) ∨ (50 < t ∧ t < 51) ∨
      (80 < t ∧ t < 81)) :
    gradeFromScore t = "F" := by
  simp only [gradeFromScore, GRADE_THRESHOLDS, gradeGo]
  rcases h with ⟨h1, h2⟩ | ⟨h1, h2⟩ | ⟨h1, h2⟩ | ⟨h1, h2⟩ <;>
    rw [if_neg (by rintro ⟨g1, g2⟩; linarith), if_neg (by rintro ⟨g1, g2⟩; linarith),
      if_neg (by rintro ⟨g1, g2⟩; linarith), if_neg (by rintro ⟨g1, g2⟩; linarith),
      if_neg (by rintro ⟨g1, g2⟩; linarith)]

/-- Witness for C9 at the gap total 10.5. -/
theorem grade_gap_fallback_witness : gradeFromScore (21 / 2) = "F" :=
  grade_gap_fallback (21 / 2) (Or.inl ⟨by norm_num, by norm_num⟩)

-- ---------------------------------------------------------------------------
-- C2 : average-risk grading (modelled from the spec)
-- ---------------------------------------------------------------------------

/-- The mean weight of {critical, critical, low} under the alternate
5/3/2/1/0 table is 11/3. -/
theorem avgRisk_example : avgRisk ["critical", "critical", "low"] = 11 / 3 := by
  simp [avgRisk, AVG_SEVERITY_WEIGHT, List.lookup]
  norm_num

/-- C2 (amended): the spec-modelled average-risk grading uses the weight
table critical=5, high=3, medium=2, low=1, info=0 and the six thresholds
A ≤0.5, B ≤1.5, C ≤2.5, D ≤3.5, E ≤4.5, F >4.5; for three findings with
severities {critical, critical, low} the mean is (5+5+1)/3 = 11/3 ≈ 3.67,
which exceeds 3.5, so the grade returned is E — not D. -/
theorem avg_grading_spec :
    (∀ a : ℚ, a ≤ 1 / 2 → gradeFromAvg a = "A") ∧
    (∀ a : ℚ, 1 / 2 < a → a ≤ 3 / 2 → gradeFromAvg a = "B") ∧
    (∀ a : ℚ, 3 / 2 < a → a ≤ 5 / 2 → gradeFromAvg a = "C") ∧
    (∀ a : ℚ, 5 / 2 < a → a ≤ 7 / 2 → gradeFromAvg a = "D") ∧
    (∀ a : ℚ, 7 / 2 < a → a ≤ 9 / 2 → gradeFromAvg a = "E") ∧
    (∀ a : ℚ, 9 / 2 < a → gradeFromAvg a = "F") ∧
    avgRisk ["critical", "critical", "low"] = 11 / 3 ∧
    gradeFromAvg (11 / 3) = "E" := by
  refine ⟨?_, ?_, ?_, ?_, ?_, ?_, avgRisk_example, ?_⟩
  · intro a h1
    rw [gradeFromAvg, if_pos h1]
  · intro a h1 h2
    rw [gradeFromAvg, if_neg (by linarith), if_pos h2]
  · intro a h1 h2
    rw [gradeFromAvg, if_neg (by linarith), if_neg (by linarith), if_pos h2]
  · intro a h1 h2
    rw [gradeFromAvg, if_neg (by linarith), if_neg (by linarith),
      if_neg (by linarith), if_pos h2]
  · intro a h1 h2
    rw [gradeFromAvg, if_neg (by linarith), if_neg (by linarith),
      if_neg (by linarith), if_neg (by linarith), if_pos h2]
  · intro a h1
    rw [gradeFromAvg, if_neg (by linarith), if_neg (by linarith),
      if_neg (by linarith), if_neg (by linarith), if_neg (by linarith)]
  · rw [gradeFromAvg, if_neg (by norm_num), if_neg (by norm_num),
      if_neg (by norm_num), if_neg (by norm_num), if_pos (by norm_num)]

/-- Witness for C2: the E band rule applied at the example mean 11/3. -/
theorem avg_grading_spec_witness :
    gradeFromAvg (11 / 3) = "E" ∧ avgRisk ["critical", "critical", "low"] = 11 / 3 :=
  ⟨avg_grading_spec.2.2.2.2.1 (11 / 3) (by norm_num) (by norm_num),
   avg_grading_spec.2.2.2.2.2.2.1⟩

/-- Counterexample to C2 as stated: the mean for {critical, critical, low}
grades to E under the claimed thresholds, not to D. -/
theorem avg_grading_counterexample :
    gradeFromAvg (avgRisk ["critical", "critical", "low"]) = "E" ∧ "E" ≠ "D" := by
  constructor
  · rw [avgRisk_example, gradeFromAvg, if_neg (by norm_num), if_neg (by norm_num),
      if_neg (by norm_num), if_neg (by norm_num), if_pos (by norm_num)]
  · decide

-- ---------------------------------------------------------------------------
-- C8 : title patching is a frame-preserving repair
-- ---------------------------------------------------------------------------

/-- The pointwise relation between an input finding and its patched output:
all fields but the title agree, non-matching findings are untouched, and any
change replaces the title by one of the loaded descriptions. -/
def patchRel (descs : List String) (f g : LFinding) : Prop :=
  g.id = f.id ∧ g.description = f.description ∧ g.severity = f.severity ∧
  g.asset = f.asset ∧ g.service = f.service ∧
  (patchCond f = false → g = f) ∧
  (g = f ∨ ∃ d ∈ descs, g = { f with title := some d })

/-- The patch loop relates input and output pointwise under `patchRel`. -/
theorem patchGo_rel (descs : List String) (fs : List LFinding) :
    ∀ idx, List.Forall₂ (patchRel descs) fs (patchGo descs idx fs) := by
  induction fs with
  | nil => intro idx; exact List.Forall₂.nil
  | cons f fs ih =>
    intro idx
    rw [patchGo]
    split
    · rename_i h
      refine List.Forall₂.cons ?_ (ih (idx + 1))
      refine ⟨rfl, rfl, rfl, rfl, rfl, ?_, ?_⟩
      · intro hc; rw [hc] at h; exact absurd h.1 (by simp)
      · refine Or.inr ⟨descs.getD idx "", ?_, rfl⟩
        rw [List.getD_eq_getElem _ _ h.2]
        exact List.getElem_mem h.2
    · refine List.Forall₂.cons ⟨rfl, rfl, rfl, rfl, rfl, fun _ => rfl, Or.inl rfl⟩ (ih idx)

/-- C8: `patch_linux_titles` preserves the length and order of the findings
list and relates each input finding to its output pointwise: every field
except the title is unchanged, findings that do not match (asset
"kaliscanner", service "linux", title None/""/"Suggestion") are returned
identically, and any modified finding only has its title replaced by one of
the descriptions read from the lynis report. -/
theorem patch_title_frame_spec (descs : List String) (fs : List LFinding) :
    List.Forall₂ (patchRel descs) fs (patchLinuxTitles descs fs) ∧
    (patchLinuxTitles descs fs).length = fs.length := by
  have hrel : List.Forall₂ (patchRel descs) fs (patchLinuxTitles descs fs) := by
    rw [patchLinuxTitles]
    split
    · exact List.forall₂_same.mpr
        (fun x _ => ⟨rfl, rfl, rfl, rfl, rfl, fun _ => rfl, Or.inl rfl⟩)
    · exact patchGo_rel descs fs 0
  exact ⟨hrel, (List.Forall₂.length_eq hrel).symm⟩

/-- A concrete mixed findings list for the C8 witness. -/
def patchDemoFindings : List LFinding :=
  [⟨some "AWS-1", some "S3 bucket public", some "d1", some "high", some "acct", some "s3"⟩,
   ⟨some "SSH-7408", some "Suggestion", some "d2", some "low", some "kaliscanner", some "linux"⟩]

/-- Witness for C8 on a concrete list and description set. -/
theorem patch_title_frame_spec_witness :
    List.Forall₂ (patchRel ["Harden SSH"]) patchDemoFindings
      (patchLinuxTitles ["Harden SSH"] patchDemoFindings) ∧
    (patchLinuxTitles ["Harden SSH"] patchDemoFindings).length =
      patchDemoFindings.length :=
  patch_title_frame_spec ["Harden SSH"] patchDemoFindings
